import Mathlib

/-!
Verification of the rmgr descriptor routines for the ordered-tree (nbtree)
and hierarchical-tree (gist) access methods, together with a model of the
log-record decoder and the replay engine specified as their counterpart.

The descriptor and identify routines are shallow embeddings of
`src/backend/access/rmgrdesc/nbtdesc.c` and
`src/backend/access/rmgrdesc/gistdesc.c`.  A C `appendStringInfo(buf, fmt,
...)` call is modelled as appending the rendered string to the buffer;
machine integers (`uint32`, `OffsetNumber`, `TransactionId`) are modelled
as `Nat` (all formatted values are printed with `%u`/`%d` and are
non-negative in every scenario considered here).
-/

/-- Modelled from the spec: the kind-tag constants for the ordered-tree
access method come from a header that is not part of the repository
fragment; the values used here are an arbitrary choice of 14 distinct
byte values (the C `switch` statements only require distinctness). -/
def XLOG_BTREE_INSERT_LEAF : Nat := 0x00

def XLOG_BTREE_INSERT_UPPER : Nat := 0x10

def XLOG_BTREE_INSERT_META : Nat := 0x20

def XLOG_BTREE_SPLIT_L : Nat := 0x30

def XLOG_BTREE_SPLIT_R : Nat := 0x40

def XLOG_BTREE_SPLIT_L_ROOT : Nat := 0x50

def XLOG_BTREE_SPLIT_R_ROOT : Nat := 0x60

def XLOG_BTREE_DELETE : Nat := 0x70

def XLOG_BTREE_UNLINK_PAGE : Nat := 0x80

def XLOG_BTREE_UNLINK_PAGE_META : Nat := 0x90

def XLOG_BTREE_NEWROOT : Nat := 0xA0

def XLOG_BTREE_MARK_PAGE_HALFDEAD : Nat := 0xB0

def XLOG_BTREE_VACUUM : Nat := 0xC0

def XLOG_BTREE_REUSE_PAGE : Nat := 0xD0

/-- Modelled from the spec: the three kind-tag constants for the
hierarchical-tree access method (header not in the repository fragment). -/
def XLOG_GIST_PAGE_UPDATE : Nat := 0x00

def XLOG_GIST_PAGE_SPLIT : Nat := 0x30

def XLOG_GIST_CREATE_INDEX : Nat := 0x50

/-- `RelFileNode`: the (tablespace, database, relation) locator triple. -/
structure RelFileNode where
  spcNode : Nat
  dbNode : Nat
  relNode : Nat
deriving DecidableEq

/-- An item pointer: (block number, offset number). -/
structure ItemPointerData where
  blkno : Nat
  offnum : Nat
deriving DecidableEq

/-- `xl_btreetid`: a relation locator plus a target item pointer. -/
structure xl_btreetid where
  node : RelFileNode
  tid : ItemPointerData
deriving DecidableEq

structure xl_btree_insert where
  target : xl_btreetid
deriving DecidableEq

structure xl_btree_split where
  node : RelFileNode
  leftsib : Nat
  rightsib : Nat
  rnext : Nat
  level : Nat
  firstright : Nat
deriving DecidableEq

structure xl_btree_vacuum where
  node : RelFileNode
  block : Nat
  lastBlockVacuumed : Nat
deriving DecidableEq

structure xl_btree_delete where
  node : RelFileNode
  block : Nat
  hnode : RelFileNode
deriving DecidableEq

structure xl_btree_mark_page_halfdead where
  target : xl_btreetid
  topparent : Nat
  leafblk : Nat
  leftblk : Nat
  rightblk : Nat
deriving DecidableEq

structure xl_btree_unlink_page where
  node : RelFileNode
  deadblk : Nat
  leftsib : Nat
  rightsib : Nat
  btpo_xact : Nat
  leafblk : Nat
  leafleftsib : Nat
  leafrightsib : Nat
  topparent : Nat
deriving DecidableEq

structure xl_btree_newroot where
  node : RelFileNode
  rootblk : Nat
  level : Nat
deriving DecidableEq

structure xl_btree_reuse_page where
  node : RelFileNode
  latestRemovedXid : Nat
deriving DecidableEq

structure gistxlogPageUpdate where
  node : RelFileNode
  blkno : Nat
deriving DecidableEq

structure gistxlogPageSplit where
  node : RelFileNode
  origblkno : Nat
  npage : Nat
deriving DecidableEq

/-- The raw record body of an ordered-tree log record as `btree_desc` sees
it: the C code casts the same `rec` pointer to whichever struct the kind
tag selects, so the raw body is modelled as providing every cast view. -/
structure BtreeRaw where
  asInsert : xl_btree_insert
  asSplit : xl_btree_split
  asVacuum : xl_btree_vacuum
  asDelete : xl_btree_delete
  asHalfdead : xl_btree_mark_page_halfdead
  asUnlink : xl_btree_unlink_page
  asNewroot : xl_btree_newroot
  asReuse : xl_btree_reuse_page
deriving DecidableEq

/-- The raw record body of a hierarchical-tree log record as `gist_desc`
sees it (one cast view per kind). -/
structure GistRaw where
  asPageUpdate : gistxlogPageUpdate
  asPageSplit : gistxlogPageSplit
  asCreateIndex : RelFileNode
deriving DecidableEq

/-- Rendering of a `RelFileNode` as `%u/%u/%u`. -/
def showRelFileNode (n : RelFileNode) : String :=
  toString n.spcNode ++ "/" ++ toString n.dbNode ++ "/" ++ toString n.relNode

/-- Rendering of an item pointer as `%u/%u` (block/offset). -/
def showTid (t : ItemPointerData) : String :=
  toString t.blkno ++ "/" ++ toString t.offnum

/-- `out_target` from nbtdesc.c: append `rel %u/%u/%u; tid %u/%u`. -/
def out_target (buf : String) (target : xl_btreetid) : String :=
  buf ++ ("rel " ++ showRelFileNode target.node ++ "; tid " ++ showTid target.tid)

/-- `btree_desc` from nbtdesc.c.  `info` is the masked kind tag
(`record->xl_info & ~XLR_INFO_MASK`); the `switch` has no `default`
case, so an unlisted tag appends nothing. -/
def btree_desc (buf : String) (info : Nat) (raw : BtreeRaw) : String :=
  if info = XLOG_BTREE_INSERT_LEAF ∨ info = XLOG_BTREE_INSERT_UPPER ∨
      info = XLOG_BTREE_INSERT_META then
    out_target buf raw.asInsert.target
  else if info = XLOG_BTREE_SPLIT_L ∨ info = XLOG_BTREE_SPLIT_R ∨
      info = XLOG_BTREE_SPLIT_L_ROOT ∨ info = XLOG_BTREE_SPLIT_R_ROOT then
    (buf ++ ("rel " ++ showRelFileNode raw.asSplit.node ++ " ")) ++
      ("left " ++ toString raw.asSplit.leftsib ++
       ", right " ++ toString raw.asSplit.rightsib ++
       ", next " ++ toString raw.asSplit.rnext ++
       ", level " ++ toString raw.asSplit.level ++
       ", firstright " ++ toString raw.asSplit.firstright)
  else if info = XLOG_BTREE_VACUUM then
    buf ++ ("rel " ++ showRelFileNode raw.asVacuum.node ++
      "; blk " ++ toString raw.asVacuum.block ++
      ", lastBlockVacuumed " ++ toString raw.asVacuum.lastBlockVacuumed)
  else if info = XLOG_BTREE_DELETE then
    buf ++ ("index " ++ showRelFileNode raw.asDelete.node ++
      "; iblk " ++ toString raw.asDelete.block ++
      ", heap " ++ showRelFileNode raw.asDelete.hnode ++ ";")
  else if info = XLOG_BTREE_MARK_PAGE_HALFDEAD then
    out_target buf raw.asHalfdead.target ++
      ("; topparent " ++ toString raw.asHalfdead.topparent ++
       "; leaf " ++ toString raw.asHalfdead.leafblk ++
       "; left " ++ toString raw.asHalfdead.leftblk ++
       "; right " ++ toString raw.asHalfdead.rightblk)
  else if info = XLOG_BTREE_UNLINK_PAGE_META ∨ info = XLOG_BTREE_UNLINK_PAGE then
    ((buf ++ ("rel " ++ showRelFileNode raw.asUnlink.node ++ "; ")) ++
      ("dead " ++ toString raw.asUnlink.deadblk ++
       "; left " ++ toString raw.asUnlink.leftsib ++
       "; right " ++ toString raw.asUnlink.rightsib ++
       "; btpo_xact " ++ toString raw.asUnlink.btpo_xact ++ "; ")) ++
      ("leaf " ++ toString raw.asUnlink.leafblk ++
       "; leafleft " ++ toString raw.asUnlink.leafleftsib ++
       "; leafright " ++ toString raw.asUnlink.leafrightsib ++
       "; topparent " ++ toString raw.asUnlink.topparent)
  else if info = XLOG_BTREE_NEWROOT then
    buf ++ ("rel " ++ showRelFileNode raw.asNewroot.node ++
      "; root " ++ toString raw.asNewroot.rootblk ++
      " lev " ++ toString raw.asNewroot.level)
  else if info = XLOG_BTREE_REUSE_PAGE then
    buf ++ ("rel " ++ showRelFileNode raw.asReuse.node ++
      "; latestRemovedXid " ++ toString raw.asReuse.latestRemovedXid)
  else
    buf

/-- `btree_identify` from nbtdesc.c: `id` stays NULL (`none`) for any tag
outside the 14 listed cases. -/
def btree_identify (info : Nat) : Option String :=
  if info = XLOG_BTREE_INSERT_LEAF then some "INSERT_LEAF"
  else if info = XLOG_BTREE_INSERT_UPPER then some "INSERT_UPPER"
  else if info = XLOG_BTREE_INSERT_META then some "INSERT_META"
  else if info = XLOG_BTREE_SPLIT_L then some "SPLIT_L"
  else if info = XLOG_BTREE_SPLIT_R then some "SPLIT_R"
  else if info = XLOG_BTREE_SPLIT_L_ROOT then some "SPLIT_L_ROOT"
  else if info = XLOG_BTREE_SPLIT_R_ROOT then some "SPLIT_R_ROOT"
  else if info = XLOG_BTREE_VACUUM then some "VACUUM"
  else if info = XLOG_BTREE_DELETE then some "DELETE"
  else if info = XLOG_BTREE_MARK_PAGE_HALFDEAD then some "MARK_PAGE_HALFDEAD"
  else if info = XLOG_BTREE_UNLINK_PAGE then some "UNLINK_PAGE"
  else if info = XLOG_BTREE_UNLINK_PAGE_META then some "UNLINK_PAGE_META"
  else if info = XLOG_BTREE_NEWROOT then some "NEWROOT"
  else if info = XLOG_BTREE_REUSE_PAGE then some "REUSE_PAGE"
  else none

namespace GistDesc

/-- `out_target` from gistdesc.c: append `rel %u/%u/%u`. -/
def out_target (buf : String) (node : RelFileNode) : String :=
  buf ++ ("rel " ++ showRelFileNode node)

/-- `out_gistxlogPageUpdate` from gistdesc.c. -/
def out_gistxlogPageUpdate (buf : String) (xlrec : gistxlogPageUpdate) : String :=
  out_target buf xlrec.node ++ ("; block number " ++ toString xlrec.blkno)

/-- `out_gistxlogPageSplit` from gistdesc.c. -/
def out_gistxlogPageSplit (buf : String) (xlrec : gistxlogPageSplit) : String :=
  out_target (buf ++ "page_split: ") xlrec.node ++
    ("; block number " ++ toString xlrec.origblkno ++
     " splits to " ++ toString xlrec.npage ++ " pages")

/-- `gist_desc` from gistdesc.c; no `default` case, so an unlisted tag
appends nothing. -/
def gist_desc (buf : String) (info : Nat) (raw : GistRaw) : String :=
  if info = XLOG_GIST_PAGE_UPDATE then
    out_gistxlogPageUpdate buf raw.asPageUpdate
  else if info = XLOG_GIST_PAGE_SPLIT then
    out_gistxlogPageSplit buf raw.asPageSplit
  else if info = XLOG_GIST_CREATE_INDEX then
    buf ++ ("rel " ++ showRelFileNode raw.asCreateIndex)
  else
    buf

/-- `gist_identify` from gistdesc.c. -/
def gist_identify (info : Nat) : Option String :=
  if info = XLOG_GIST_PAGE_UPDATE then some "PAGE_UPDATE"
  else if info = XLOG_GIST_PAGE_SPLIT then some "PAGE_SPLIT"
  else if info = XLOG_GIST_CREATE_INDEX then some "CREATE_INDEX"
  else none

end GistDesc

/-- The closed enumeration of ordered-tree kind tags. -/
def btreeTagList : List Nat :=
  [XLOG_BTREE_INSERT_LEAF, XLOG_BTREE_INSERT_UPPER, XLOG_BTREE_INSERT_META,
   XLOG_BTREE_SPLIT_L, XLOG_BTREE_SPLIT_R, XLOG_BTREE_SPLIT_L_ROOT,
   XLOG_BTREE_SPLIT_R_ROOT, XLOG_BTREE_VACUUM, XLOG_BTREE_DELETE,
   XLOG_BTREE_MARK_PAGE_HALFDEAD, XLOG_BTREE_UNLINK_PAGE,
   XLOG_BTREE_UNLINK_PAGE_META, XLOG_BTREE_NEWROOT, XLOG_BTREE_REUSE_PAGE]

/-- The closed enumeration of hierarchical-tree kind tags. -/
def gistTagList : List Nat :=
  [XLOG_GIST_PAGE_UPDATE, XLOG_GIST_PAGE_SPLIT, XLOG_GIST_CREATE_INDEX]

/-! ## Decoder model

Modelled from the spec: `decode(bytes, accessMethod, kind)` is not part of
the repository fragment (the C files cast an already-framed record buffer);
§4.2 and §9 of the spec require explicit, bounds-checked field extraction
that rejects short buffers with `Truncated` instead of reading past the
end.  Fields are fixed-width integers laid out in declared order with no
implicit padding (§6); widths are 4 bytes for `uint32` fields and 2 bytes
for offset/count fields, read little-endian. -/

inductive DecodeError where
  | Truncated
  | Malformed
deriving DecidableEq

/-- The closed enumeration of ordered-tree record kinds. -/
inductive BtreeKind where
  | insert_leaf
  | insert_upper
  | insert_meta
  | split_l
  | split_r
  | split_l_root
  | split_r_root
  | vacuum
  | delete
  | mark_page_halfdead
  | unlink_page
  | unlink_page_meta
  | newroot
  | reuse_page
deriving DecidableEq

/-- The closed enumeration of hierarchical-tree record kinds. -/
inductive GistKind where
  | page_update
  | page_split
  | create_index
deriving DecidableEq

/-- Little-endian value of a byte chunk. -/
def leBytes (chunk : List Nat) : Nat :=
  chunk.foldr (fun b acc => b + 256 * acc) 0

/-- Bounds-checked read of one `w`-byte field at offset `off`; `none` when
the field would extend past the end of the buffer. -/
def readField (bs : List Nat) (off w : Nat) : Option Nat :=
  if off + w ≤ bs.length then some (leBytes ((bs.drop off).take w)) else none

/-- Bounds-checked sequential read of the fields whose widths are `ws`,
starting at offset `off`. -/
def readFields (bs : List Nat) (off : Nat) : List Nat → Option (List Nat)
  | [] => some []
  | w :: ws =>
    (readField bs off w).bind fun v =>
      (readFields bs (off + w) ws).map (fun vs => v :: vs)

/-- Modelled from the spec: declared field widths of each ordered-tree
record kind's fixed header (§4.1 table; relation locators are three
4-byte fields, block numbers and xids 4 bytes, offset numbers 2 bytes). -/
def btreeFieldWidths : BtreeKind → List Nat
  | .insert_leaf | .insert_upper | .insert_meta => [4, 4, 4, 4, 2]
  | .split_l | .split_r | .split_l_root | .split_r_root => [4, 4, 4, 4, 4, 4, 4, 2]
  | .vacuum => [4, 4, 4, 4, 4]
  | .delete => [4, 4, 4, 4, 4, 4, 4]
  | .mark_page_halfdead => [4, 4, 4, 4, 2, 4, 4, 4, 4]
  | .unlink_page | .unlink_page_meta => [4, 4, 4, 4, 4, 4, 4, 4, 4, 4, 4]
  | .newroot => [4, 4, 4, 4, 4]
  | .reuse_page => [4, 4, 4, 4]

/-- Modelled from the spec: declared field widths of each
hierarchical-tree record kind's fixed header. -/
def gistFieldWidths : GistKind → List Nat
  | .page_update => [4, 4, 4, 4]
  | .page_split => [4, 4, 4, 4, 2]
  | .create_index => [4, 4, 4]

/-- The number of bytes the fixed header of an ordered-tree kind requires. -/
def btreeHdrSize (k : BtreeKind) : Nat := (btreeFieldWidths k).sum

/-- The number of bytes the fixed header of a hierarchical-tree kind
requires. -/
def gistHdrSize (k : GistKind) : Nat := (gistFieldWidths k).sum

/-- A decoded ordered-tree record: the kind tag plus its extracted header
field values in declared order. -/
structure DecodedBtree where
  kind : BtreeKind
  fields : List Nat
deriving DecidableEq

/-- A decoded hierarchical-tree record. -/
structure DecodedGist where
  kind : GistKind
  fields : List Nat
deriving DecidableEq

/-- Modelled from the spec: bounds-checked decode of an ordered-tree
record's fixed header; a buffer shorter than the fixed header yields
`Truncated`. -/
def decode_btree (k : BtreeKind) (bs : List Nat) : Except DecodeError DecodedBtree :=
  match readFields bs 0 (btreeFieldWidths k) with
  | some vs => .ok ⟨k, vs⟩
  | none => .error .Truncated

/-- Modelled from the spec: bounds-checked decode of a hierarchical-tree
record's fixed header. -/
def decode_gist (k : GistKind) (bs : List Nat) : Except DecodeError DecodedGist :=
  match readFields bs 0 (gistFieldWidths k) with
  | some vs => .ok ⟨k, vs⟩
  | none => .error .Truncated

/-! ## Replay engine model

Modelled from the spec: the replay engine is not part of the repository
fragment (§2: "the Replay Engine and Record Catalog are specified here as
the necessary counterpart").  The model follows §3 invariants 4 and 5 and
the §4.4 per-page state machine: a page carries the log position of the
last record applied to it, a record whose position is not strictly greater
than that position is skipped with no mutation and no error, and the
`Normal → HalfDead → Unlinked → Reusable` transitions are guarded; the
reuse-page guard rejects (fatally) when an active transaction older than
the record's removal-horizon xid exists (§8 Scenario C). -/

inductive ReplayError where
  | UnknownKind
  | InvariantViolation
deriving DecidableEq

inductive PageState where
  | Normal
  | HalfDead
  | Unlinked
  | Reusable
deriving DecidableEq

/-- A single page image as the replay engine sees it: the last-applied log
position from the page header, the §4.4 state, the right-link of the
sibling chain, the pending top-parent downlink, the tree level and the
number of stored items. -/
structure Page where
  lastApplied : Nat
  state : PageState
  rightLink : Option Nat
  topparent : Option Nat
  level : Nat
  nitems : Nat
deriving DecidableEq

/-- A log record body, one variant per (access-method, kind) pair. -/
inductive LogRecord where
  | insert_leaf (x : xl_btree_insert)
  | insert_upper (x : xl_btree_insert)
  | insert_meta (x : xl_btree_insert)
  | split_l (x : xl_btree_split)
  | split_r (x : xl_btree_split)
  | split_l_root (x : xl_btree_split)
  | split_r_root (x : xl_btree_split)
  | vacuum (x : xl_btree_vacuum)
  | delete (x : xl_btree_delete)
  | mark_page_halfdead (x : xl_btree_mark_page_halfdead)
  | unlink_page (x : xl_btree_unlink_page)
  | unlink_page_meta (x : xl_btree_unlink_page)
  | newroot (x : xl_btree_newroot)
  | reuse_page (x : xl_btree_reuse_page)
  | gist_page_update (x : gistxlogPageUpdate)
  | gist_page_split (x : gistxlogPageSplit)
  | gist_create_index (node : RelFileNode)
deriving DecidableEq

/-- A log record together with the log position at which it was produced
(§3 invariant 5). -/
structure LocatedRecord where
  pos : Nat
  body : LogRecord
deriving DecidableEq

/-- Modelled from the spec: apply one record to its target page.
`activeXids` is the set of transactions that could still observe old
contents.  The idempotency rule (§4.4) is checked first for every kind;
a successful application stamps the page with the record's position. -/
def applyRecord (activeXids : List Nat) (r : LocatedRecord) (p : Page) :
    Except ReplayError Page :=
  if r.pos ≤ p.lastApplied then
    .ok p
  else
    match r.body with
    | .insert_leaf _ | .insert_upper _ | .insert_meta _ =>
      .ok { p with nitems := p.nitems + 1, lastApplied := r.pos }
    | .split_l x | .split_r x | .split_l_root x | .split_r_root x =>
      .ok { p with rightLink := some x.rightsib, level := x.level,
                   nitems := x.firstright, lastApplied := r.pos }
    | .vacuum _ | .delete _ =>
      .ok { p with nitems := p.nitems - 1, lastApplied := r.pos }
    | .mark_page_halfdead x =>
      if p.state = .Normal then
        .ok { p with state := .HalfDead, topparent := some x.topparent,
                     lastApplied := r.pos }
      else
        .error .InvariantViolation
    | .unlink_page x | .unlink_page_meta x =>
      if p.state = .HalfDead then
        .ok { p with state := .Unlinked, rightLink := some x.rightsib,
                     lastApplied := r.pos }
      else
        .error .InvariantViolation
    | .newroot x =>
      .ok { p with state := .Normal, level := x.level, nitems := 0,
                   lastApplied := r.pos }
    | .reuse_page x =>
      if activeXids.any (fun t => t < x.latestRemovedXid) then
        .error .InvariantViolation
      else if p.state = .Unlinked then
        .ok { p with state := .Reusable, lastApplied := r.pos }
      else
        .error .InvariantViolation
    | .gist_page_update _ =>
      .ok { p with nitems := p.nitems + 1, lastApplied := r.pos }
    | .gist_page_split x =>
      .ok { p with rightLink := none, nitems := x.npage, lastApplied := r.pos }
    | .gist_create_index _ =>
      .ok { p with state := .Normal, level := 0, nitems := 0,
                   lastApplied := r.pos }

/-- Applying the same record twice in sequence (errors propagate). -/
def applyTwice (activeXids : List Nat) (r : LocatedRecord) (p : Page) :
    Except ReplayError Page :=
  match applyRecord activeXids r p with
  | .ok q => applyRecord activeXids r q
  | .error e => .error e

/-- Modelled from the spec: the §4.3 dispatcher for ordered-tree replay;
an unrecognized kind under this (recognized) access method is fatal for
replay. -/
def btree_redo_dispatch (info : Nat) : Except ReplayError BtreeKind :=
  if info = XLOG_BTREE_INSERT_LEAF then .ok .insert_leaf
  else if info = XLOG_BTREE_INSERT_UPPER then .ok .insert_upper
  else if info = XLOG_BTREE_INSERT_META then .ok .insert_meta
  else if info = XLOG_BTREE_SPLIT_L then .ok .split_l
  else if info = XLOG_BTREE_SPLIT_R then .ok .split_r
  else if info = XLOG_BTREE_SPLIT_L_ROOT then .ok .split_l_root
  else if info = XLOG_BTREE_SPLIT_R_ROOT then .ok .split_r_root
  else if info = XLOG_BTREE_VACUUM then .ok .vacuum
  else if info = XLOG_BTREE_DELETE then .ok .delete
  else if info = XLOG_BTREE_MARK_PAGE_HALFDEAD then .ok .mark_page_halfdead
  else if info = XLOG_BTREE_UNLINK_PAGE then .ok .unlink_page
  else if info = XLOG_BTREE_UNLINK_PAGE_META then .ok .unlink_page_meta
  else if info = XLOG_BTREE_NEWROOT then .ok .newroot
  else if info = XLOG_BTREE_REUSE_PAGE then .ok .reuse_page
  else .error .UnknownKind

/-- Modelled from the spec: the §4.3 dispatcher for hierarchical-tree
replay. -/
def gist_redo_dispatch (info : Nat) : Except ReplayError GistKind :=
  if info = XLOG_GIST_PAGE_UPDATE then .ok .page_update
  else if info = XLOG_GIST_PAGE_SPLIT then .ok .page_split
  else if info = XLOG_GIST_CREATE_INDEX then .ok .create_index
  else .error .UnknownKind

/-! ## Helper lemmas -/

theorem string_mk_eq {s t : String} (h : s.data = t.data) : s = t := by
  cases s
  cases t
  exact congrArg String.mk h

theorem ne_empty_of_length_pos {s : String} (h : 0 < s.length) : s ≠ "" := by
  intro he
  rw [he] at h
  simp [String.length] at h

/-- `btree_desc` only ever appends to the caller's buffer. -/
theorem btree_desc_frame (buf : String) (info : Nat) (raw : BtreeRaw) :
    btree_desc buf info raw = buf ++ btree_desc "" info raw := by
  unfold btree_desc
  split_ifs <;>
    simp [out_target, String.append_assoc, String.empty_append, String.append_empty]

/-- `gist_desc` only ever appends to the caller's buffer. -/
theorem gist_desc_frame (buf : String) (info : Nat) (raw : GistRaw) :
    GistDesc.gist_desc buf info raw = buf ++ GistDesc.gist_desc "" info raw := by
  unfold GistDesc.gist_desc
  split_ifs <;>
    simp [GistDesc.out_gistxlogPageUpdate, GistDesc.out_gistxlogPageSplit,
      GistDesc.out_target, String.append_assoc, String.empty_append,
      String.append_empty]

/-- Branch equation: the three insert kinds format via `out_target`. -/
theorem btree_desc_eq_insert (buf : String) (info : Nat) (raw : BtreeRaw)
    (h : info = XLOG_BTREE_INSERT_LEAF ∨ info = XLOG_BTREE_INSERT_UPPER ∨
      info = XLOG_BTREE_INSERT_META) :
    btree_desc buf info raw = out_target buf raw.asInsert.target := by
  unfold btree_desc
  rw [if_pos h]

/-- Branch equation for the four split kinds. -/
theorem btree_desc_eq_split (buf : String) (info : Nat) (raw : BtreeRaw)
    (h : info = XLOG_BTREE_SPLIT_L ∨ info = XLOG_BTREE_SPLIT_R ∨
      info = XLOG_BTREE_SPLIT_L_ROOT ∨ info = XLOG_BTREE_SPLIT_R_ROOT) :
    btree_desc buf info raw =
      (buf ++ ("rel " ++ showRelFileNode raw.asSplit.node ++ " ")) ++
        ("left " ++ toString raw.asSplit.leftsib ++
         ", right " ++ toString raw.asSplit.rightsib ++
         ", next " ++ toString raw.asSplit.rnext ++
         ", level " ++ toString raw.asSplit.level ++
         ", firstright " ++ toString raw.asSplit.firstright) := by
  unfold btree_desc
  rcases h with h | h | h | h <;> subst h <;> rw [if_neg (by decide), if_pos (by decide)]

/-- Branch equation for the vacuum kind. -/
theorem btree_desc_eq_vacuum (buf : String) (raw : BtreeRaw) :
    btree_desc buf XLOG_BTREE_VACUUM raw =
      buf ++ ("rel " ++ showRelFileNode raw.asVacuum.node ++
        "; blk " ++ toString raw.asVacuum.block ++
        ", lastBlockVacuumed " ++ toString raw.asVacuum.lastBlockVacuumed) := by
  unfold btree_desc
  rw [if_neg (by decide), if_neg (by decide), if_pos (by decide)]

/-- Branch equation for the delete kind. -/
theorem btree_desc_eq_delete (buf : String) (raw : BtreeRaw) :
    btree_desc buf XLOG_BTREE_DELETE raw =
      buf ++ ("index " ++ showRelFileNode raw.asDelete.node ++
        "; iblk " ++ toString raw.asDelete.block ++
        ", heap " ++ showRelFileNode raw.asDelete.hnode ++ ";") := by
  unfold btree_desc
  rw [if_neg (by decide), if_neg (by decide), if_neg (by decide), if_pos (by decide)]

/-- Branch equation for the mark-page-half-dead kind. -/
theorem btree_desc_eq_halfdead (buf : String) (raw : BtreeRaw) :
    btree_desc buf XLOG_BTREE_MARK_PAGE_HALFDEAD raw =
      out_target buf raw.asHalfdead.target ++
        ("; topparent " ++ toString raw.asHalfdead.topparent ++
         "; leaf " ++ toString raw.asHalfdead.leafblk ++
         "; left " ++ toString raw.asHalfdead.leftblk ++
         "; right " ++ toString raw.asHalfdead.rightblk) := by
  unfold btree_desc
  rw [if_neg (by decide), if_neg (by decide), if_neg (by decide),
    if_neg (by decide), if_pos (by decide)]

/-- Branch equation for the two unlink kinds. -/
theorem btree_desc_eq_unlink (buf : String) (info : Nat) (raw : BtreeRaw)
    (h : info = XLOG_BTREE_UNLINK_PAGE_META ∨ info = XLOG_BTREE_UNLINK_PAGE) :
    btree_desc buf info raw =
      ((buf ++ ("rel " ++ showRelFileNode raw.asUnlink.node ++ "; ")) ++
        ("dead " ++ toString raw.asUnlink.deadblk ++
         "; left " ++ toString raw.asUnlink.leftsib ++
         "; right " ++ toString raw.asUnlink.rightsib ++
         "; btpo_xact " ++ toString raw.asUnlink.btpo_xact ++ "; ")) ++
        ("leaf " ++ toString raw.asUnlink.leafblk ++
         "; leafleft " ++ toString raw.asUnlink.leafleftsib ++
         "; leafright " ++ toString raw.asUnlink.leafrightsib ++
         "; topparent " ++ toString raw.asUnlink.topparent) := by
  unfold btree_desc
  rcases h with h | h <;> subst h <;>
    rw [if_neg (by decide), if_neg (by decide), if_neg (by decide),
      if_neg (by decide), if_neg (by decide), if_pos (by decide)]

/-- Branch equation for the new-root kind. -/
theorem btree_desc_eq_newroot (buf : String) (raw : BtreeRaw) :
    btree_desc buf XLOG_BTREE_NEWROOT raw =
      buf ++ ("rel " ++ showRelFileNode raw.asNewroot.node ++
        "; root " ++ toString raw.asNewroot.rootblk ++
        " lev " ++ toString raw.asNewroot.level) := by
  unfold btree_desc
  rw [if_neg (by decide), if_neg (by decide), if_neg (by decide),
    if_neg (by decide), if_neg (by decide), if_neg (by decide), if_pos (by decide)]

/-- Branch equation for the reuse-page kind. -/
theorem btree_desc_eq_reuse (buf : String) (raw : BtreeRaw) :
    btree_desc buf XLOG_BTREE_REUSE_PAGE raw =
      buf ++ ("rel " ++ showRelFileNode raw.asReuse.node ++
        "; latestRemovedXid " ++ toString raw.asReuse.latestRemovedXid) := by
  unfold btree_desc
  rw [if_neg (by decide), if_neg (by decide), if_neg (by decide),
    if_neg (by decide), if_neg (by decide), if_neg (by decide),
    if_neg (by decide), if_pos (by decide)]

/-- An unlisted kind tag appends nothing in `btree_desc`. -/
theorem btree_desc_of_not_mem (buf : String) (info : Nat) (raw : BtreeRaw)
    (h : info ∉ btreeTagList) : btree_desc buf info raw = buf := by
  simp only [btreeTagList, List.mem_cons, List.not_mem_nil, or_false] at h
  push_neg at h
  obtain ⟨h1, h2, h3, h4, h5, h6, h7, h8, h9, h10, h11, h12, h13, h14⟩ := h
  unfold btree_desc
  rw [if_neg (by simp [h1, h2, h3]), if_neg (by simp [h4, h5, h6, h7]),
    if_neg h8, if_neg h9, if_neg h10, if_neg (by simp [h11, h12]),
    if_neg h13, if_neg h14]

/-- An unlisted kind tag appends nothing in `gist_desc`. -/
theorem gist_desc_of_not_mem (buf : String) (info : Nat) (raw : GistRaw)
    (h : info ∉ gistTagList) : GistDesc.gist_desc buf info raw = buf := by
  simp only [gistTagList, List.mem_cons, List.not_mem_nil, or_false] at h
  push_neg at h
  obtain ⟨h1, h2, h3⟩ := h
  unfold GistDesc.gist_desc
  rw [if_neg h1, if_neg h2, if_neg h3]

/-- `btree_identify` returns NULL on every tag outside the enumeration. -/
theorem btree_identify_of_not_mem (info : Nat) (h : info ∉ btreeTagList) :
    btree_identify info = none := by
  simp only [btreeTagList, List.mem_cons, List.not_mem_nil, or_false] at h
  push_neg at h
  obtain ⟨h1, h2, h3, h4, h5, h6, h7, h8, h9, h10, h11, h12, h13, h14⟩ := h
  unfold btree_identify
  rw [if_neg h1, if_neg h2, if_neg h3, if_neg h4, if_neg h5, if_neg h6,
    if_neg h7, if_neg h8, if_neg h9, if_neg h10, if_neg h11, if_neg h12,
    if_neg h13, if_neg h14]

/-- `gist_identify` returns NULL on every tag outside the enumeration. -/
theorem gist_identify_of_not_mem (info : Nat) (h : info ∉ gistTagList) :
    GistDesc.gist_identify info = none := by
  simp only [gistTagList, List.mem_cons, List.not_mem_nil, or_false] at h
  push_neg at h
  obtain ⟨h1, h2, h3⟩ := h
  unfold GistDesc.gist_identify
  rw [if_neg h1, if_neg h2, if_neg h3]

/-- `btree_identify` succeeds exactly on the closed tag enumeration. -/
theorem btree_identify_isSome_iff (info : Nat) :
    (btree_identify info).isSome = true ↔ info ∈ btreeTagList := by
  constructor
  · intro hs
    by_contra hmem
    rw [btree_identify_of_not_mem info hmem] at hs
    simp at hs
  · intro hmem
    simp only [btreeTagList, List.mem_cons, List.not_mem_nil, or_false] at hmem
    rcases hmem with h | h | h | h | h | h | h | h | h | h | h | h | h | h <;>
      subst h <;> decide

/-- `gist_identify` succeeds exactly on the closed tag enumeration. -/
theorem gist_identify_isSome_iff (info : Nat) :
    (GistDesc.gist_identify info).isSome = true ↔ info ∈ gistTagList := by
  constructor
  · intro hs
    by_contra hmem
    rw [gist_identify_of_not_mem info hmem] at hs
    simp at hs
  · intro hmem
    simp only [gistTagList, List.mem_cons, List.not_mem_nil, or_false] at hmem
    rcases hmem with h | h | h <;> subst h <;> decide

/-- Branch equation for the hierarchical page-update kind. -/
theorem gist_desc_eq_update (buf : String) (raw : GistRaw) :
    GistDesc.gist_desc buf XLOG_GIST_PAGE_UPDATE raw =
      GistDesc.out_gistxlogPageUpdate buf raw.asPageUpdate := by
  unfold GistDesc.gist_desc
  rw [if_pos (by decide)]

/-- Branch equation for the hierarchical page-split kind. -/
theorem gist_desc_eq_pagesplit (buf : String) (raw : GistRaw) :
    GistDesc.gist_desc buf XLOG_GIST_PAGE_SPLIT raw =
      GistDesc.out_gistxlogPageSplit buf raw.asPageSplit := by
  unfold GistDesc.gist_desc
  rw [if_neg (by decide), if_pos (by decide)]

/-- Branch equation for the hierarchical create-index kind. -/
theorem gist_desc_eq_create (buf : String) (raw : GistRaw) :
    GistDesc.gist_desc buf XLOG_GIST_CREATE_INDEX raw =
      buf ++ ("rel " ++ showRelFileNode raw.asCreateIndex) := by
  unfold GistDesc.gist_desc
  rw [if_neg (by decide), if_neg (by decide), if_pos (by decide)]

/-- On every listed kind tag, `btree_desc` renders nonempty text. -/
theorem btree_desc_ne_of_mem (info : Nat) (raw : BtreeRaw)
    (h : info ∈ btreeTagList) : btree_desc "" info raw ≠ "" := by
  apply ne_empty_of_length_pos
  have hrel : ("rel " : String).length = 4 := by decide
  have hidx : ("index " : String).length = 6 := by decide
  simp only [btreeTagList, List.mem_cons, List.not_mem_nil, or_false] at h
  rcases h with h | h | h | h | h | h | h | h | h | h | h | h | h | h <;> subst h <;>
    first
    | (rw [btree_desc_eq_insert _ _ _ (by decide)]
       simp only [out_target, String.length_append, String.empty_append]
       omega)
    | (rw [btree_desc_eq_split _ _ _ (by decide)]
       simp only [String.length_append, String.empty_append]
       omega)
    | (rw [btree_desc_eq_vacuum]
       simp only [String.length_append, String.empty_append]
       omega)
    | (rw [btree_desc_eq_delete]
       simp only [String.length_append, String.empty_append]
       omega)
    | (rw [btree_desc_eq_halfdead]
       simp only [out_target, String.length_append, String.empty_append]
       omega)
    | (rw [btree_desc_eq_unlink _ _ _ (by decide)]
       simp only [String.length_append, String.empty_append]
       omega)
    | (rw [btree_desc_eq_newroot]
       simp only [String.length_append, String.empty_append]
       omega)
    | (rw [btree_desc_eq_reuse]
       simp only [String.length_append, String.empty_append]
       omega)

/-- On every listed kind tag, `gist_desc` renders nonempty text. -/
theorem gist_desc_ne_of_mem (info : Nat) (raw : GistRaw)
    (h : info ∈ gistTagList) : GistDesc.gist_desc "" info raw ≠ "" := by
  apply ne_empty_of_length_pos
  have hrel : ("rel " : String).length = 4 := by decide
  have hps : ("page_split: " : String).length = 12 := by decide
  simp only [gistTagList, List.mem_cons, List.not_mem_nil, or_false] at h
  rcases h with h | h | h <;> subst h <;>
    first
    | (rw [gist_desc_eq_update]
       simp only [GistDesc.out_gistxlogPageUpdate, GistDesc.out_target,
         String.length_append, String.empty_append]
       omega)
    | (rw [gist_desc_eq_pagesplit]
       simp only [GistDesc.out_gistxlogPageSplit, GistDesc.out_target,
         String.length_append, String.empty_append]
       omega)
    | (rw [gist_desc_eq_create]
       simp only [String.length_append, String.empty_append]
       omega)

/-- Replay dispatch is fatal on every tag outside the enumeration. -/
theorem btree_redo_dispatch_of_not_mem (info : Nat) (h : info ∉ btreeTagList) :
    btree_redo_dispatch info = .error .UnknownKind := by
  simp only [btreeTagList, List.mem_cons, List.not_mem_nil, or_false] at h
  push_neg at h
  obtain ⟨h1, h2, h3, h4, h5, h6, h7, h8, h9, h10, h11, h12, h13, h14⟩ := h
  unfold btree_redo_dispatch
  rw [if_neg h1, if_neg h2, if_neg h3, if_neg h4, if_neg h5, if_neg h6,
    if_neg h7, if_neg h8, if_neg h9, if_neg h10, if_neg h11, if_neg h12,
    if_neg h13, if_neg h14]

/-- Replay dispatch is fatal on every tag outside the enumeration. -/
theorem gist_redo_dispatch_of_not_mem (info : Nat) (h : info ∉ gistTagList) :
    gist_redo_dispatch info = .error .UnknownKind := by
  simp only [gistTagList, List.mem_cons, List.not_mem_nil, or_false] at h
  push_neg at h
  obtain ⟨h1, h2, h3⟩ := h
  unfold gist_redo_dispatch
  rw [if_neg h1, if_neg h2, if_neg h3]

/-- A concrete ordered-tree raw record body used as a test input. -/
def sampleBtreeRaw : BtreeRaw :=
  ⟨⟨⟨⟨1663, 12345, 67890⟩, ⟨42, 3⟩⟩⟩, ⟨⟨1, 1, 1⟩, 10, 11, 12, 0, 4⟩,
   ⟨⟨1, 1, 1⟩, 0, 0⟩, ⟨⟨1, 1, 1⟩, 0, ⟨1, 1, 1⟩⟩,
   ⟨⟨⟨1, 1, 1⟩, ⟨0, 0⟩⟩, 0, 0, 0, 0⟩, ⟨⟨1, 1, 1⟩, 0, 0, 0, 0, 0, 0, 0, 0⟩,
   ⟨⟨1, 1, 1⟩, 0, 0⟩, ⟨⟨1, 1, 1⟩, 7⟩⟩

/-- A concrete hierarchical-tree raw record body used as a test input. -/
def sampleGistRaw : GistRaw :=
  ⟨⟨⟨1663, 12345, 67890⟩, 5⟩, ⟨⟨1663, 12345, 67890⟩, 6, 2⟩, ⟨1663, 12345, 67890⟩⟩

/-! ## Claim theorems -/

/-- Claim C5: for each access method, `identify` returns a name exactly
for the tags in that access method's closed enumeration — 14 distinct
ordered-tree kinds and 3 distinct hierarchical-tree kinds — and returns
`none` for every other tag value. -/
theorem identify_totality :
    (∀ info : Nat, (btree_identify info).isSome = true ↔ info ∈ btreeTagList) ∧
    btreeTagList.Nodup ∧ btreeTagList.length = 14 ∧
    (∀ info : Nat, (GistDesc.gist_identify info).isSome = true ↔ info ∈ gistTagList) ∧
    gistTagList.Nodup ∧ gistTagList.length = 3 :=
  ⟨btree_identify_isSome_iff, by decide, by decide,
   gist_identify_isSome_iff, by decide, by decide⟩

/-- Claim C9: for each access method and every raw record body, the
description routine produces output exactly for the kind tags on which
the identify routine returns a non-NULL name: a record kind is
formattable if and only if it is identifiable. -/
theorem desc_iff_identify :
    (∀ (info : Nat) (raw : BtreeRaw),
        btree_desc "" info raw ≠ "" ↔ (btree_identify info).isSome = true) ∧
    (∀ (info : Nat) (raw : GistRaw),
        GistDesc.gist_desc "" info raw ≠ "" ↔
          (GistDesc.gist_identify info).isSome = true) := by
  constructor
  · intro info raw
    rw [btree_identify_isSome_iff]
    constructor
    · intro hne
      by_contra hmem
      exact hne (btree_desc_of_not_mem "" info raw hmem)
    · exact btree_desc_ne_of_mem info raw
  · intro info raw
    rw [gist_identify_isSome_iff]
    constructor
    · intro hne
      by_contra hmem
      exact hne (gist_desc_of_not_mem "" info raw hmem)
    · exact gist_desc_ne_of_mem info raw

/-- Claim C3: for an insert-into-leaf record carrying relation locator
(1663, 12345, 67890) and target item address (block 42, offset 3), the
formatter appends exactly the string `rel 1663/12345/67890; tid 42/3`,
whatever the other cast views of the raw body and the prior buffer
contents are. -/
theorem btree_desc_insert_leaf_scenario :
    ∀ (buf : String) (s : xl_btree_split) (v : xl_btree_vacuum)
      (d : xl_btree_delete) (hd : xl_btree_mark_page_halfdead)
      (u : xl_btree_unlink_page) (nr : xl_btree_newroot)
      (rp : xl_btree_reuse_page),
      btree_desc buf XLOG_BTREE_INSERT_LEAF
          ⟨⟨⟨⟨1663, 12345, 67890⟩, ⟨42, 3⟩⟩⟩, s, v, d, hd, u, nr, rp⟩ =
        buf ++ "rel 1663/12345/67890; tid 42/3" := by
  intro buf s v d hd u nr rp
  rw [btree_desc_frame]
  congr 1
  simp only [btree_desc]
  norm_num
  simp only [out_target, showRelFileNode, showTid]
  decide

/-- Claim C4: for an ordered-tree split record with left sibling 10, right
sibling 11, next-right 12, level 0 and first-moved-offset 4, the
formatter's output is the relation locator (`rel spc/db/rel `) followed by
exactly `left 10, right 11, next 12, level 0, firstright 4`; in
particular the output ends with that string. -/
theorem btree_desc_split_scenario :
    ∀ (buf : String) (spc db rel : Nat) (ins : xl_btree_insert)
      (v : xl_btree_vacuum) (d : xl_btree_delete)
      (hd : xl_btree_mark_page_halfdead) (u : xl_btree_unlink_page)
      (nr : xl_btree_newroot) (rp : xl_btree_reuse_page),
      btree_desc buf XLOG_BTREE_SPLIT_L
          ⟨ins, ⟨⟨spc, db, rel⟩, 10, 11, 12, 0, 4⟩, v, d, hd, u, nr, rp⟩ =
        (buf ++ ("rel " ++ showRelFileNode ⟨spc, db, rel⟩ ++ " ")) ++
          "left 10, right 11, next 12, level 0, firstright 4" ∧
      ∃ a, btree_desc buf XLOG_BTREE_SPLIT_L
          ⟨ins, ⟨⟨spc, db, rel⟩, 10, 11, 12, 0, 4⟩, v, d, hd, u, nr, rp⟩ =
        a ++ "left 10, right 11, next 12, level 0, firstright 4" := by
  intro buf spc db rel ins v d hd u nr rp
  have key : btree_desc buf XLOG_BTREE_SPLIT_L
      ⟨ins, ⟨⟨spc, db, rel⟩, 10, 11, 12, 0, 4⟩, v, d, hd, u, nr, rp⟩ =
      (buf ++ ("rel " ++ showRelFileNode ⟨spc, db, rel⟩ ++ " ")) ++
        "left 10, right 11, next 12, level 0, firstright 4" := by
    simp only [btree_desc, XLOG_BTREE_SPLIT_L, XLOG_BTREE_INSERT_LEAF,
      XLOG_BTREE_INSERT_UPPER, XLOG_BTREE_INSERT_META, XLOG_BTREE_SPLIT_R,
      XLOG_BTREE_SPLIT_L_ROOT, XLOG_BTREE_SPLIT_R_ROOT]
    norm_num
    congr 1
  exact ⟨key, ⟨buf ++ ("rel " ++ showRelFileNode ⟨spc, db, rel⟩ ++ " "), key⟩⟩

/-- Claim C10: the description routines are append-only observers: for
every record and every starting buffer, the final buffer contents equal
the original contents followed by the text the routine renders for that
record (the rendering with an empty starting buffer); nothing already in
the buffer is modified or removed. -/
theorem desc_append_only :
    (∀ (buf : String) (info : Nat) (raw : BtreeRaw),
        btree_desc buf info raw = buf ++ btree_desc "" info raw) ∧
    (∀ (buf : String) (info : Nat) (raw : GistRaw),
        GistDesc.gist_desc buf info raw = buf ++ GistDesc.gist_desc "" info raw) :=
  ⟨btree_desc_frame, gist_desc_frame⟩

/-- Claim C6 counterexample: 0xE0 is an unrecognized kind tag under the
(recognized) ordered-tree access method, yet the description routine
appends nothing at all — it silently emits no output rather than a marked
"unrecognized" rendering. -/
theorem unknown_kind_silent_counterexample :
    224 ∉ btreeTagList ∧ btree_identify 224 = none ∧
    btree_desc "" 224 sampleBtreeRaw = "" := by
  decide

/-- Claim C6 (amended): for every unrecognized kind tag under a recognized
access method, the description routine does not abort but appends nothing
to the output buffer (it emits no "unrecognized" marker of its own), the
identify routine returns the NULL/"unknown" marker, and replay dispatch of
that record is fatal with an unknown-kind error. -/
theorem unknown_kind_diagnostics_amended :
    ∀ (buf : String) (infoB infoG : Nat) (rawB : BtreeRaw) (rawG : GistRaw),
      infoB ∉ btreeTagList → infoG ∉ gistTagList →
      (btree_desc buf infoB rawB = buf ∧ btree_identify infoB = none ∧
        btree_redo_dispatch infoB = .error .UnknownKind) ∧
      (GistDesc.gist_desc buf infoG rawG = buf ∧
        GistDesc.gist_identify infoG = none ∧
        gist_redo_dispatch infoG = .error .UnknownKind) := by
  intro buf infoB infoG rawB rawG hB hG
  exact ⟨⟨btree_desc_of_not_mem buf infoB rawB hB,
          btree_identify_of_not_mem infoB hB,
          btree_redo_dispatch_of_not_mem infoB hB⟩,
         ⟨gist_desc_of_not_mem buf infoG rawG hG,
          gist_identify_of_not_mem infoG hG,
          gist_redo_dispatch_of_not_mem infoG hG⟩⟩

/-- Witness for the amended claim C6 at the concrete tag 0xE0. -/
theorem unknown_kind_diagnostics_amended_witness :
    (224 ∉ btreeTagList ∧ 224 ∉ gistTagList) ∧
    btree_desc "x" 224 sampleBtreeRaw = "x" ∧ btree_identify 224 = none ∧
    btree_redo_dispatch 224 = .error .UnknownKind ∧
    GistDesc.gist_desc "x" 224 sampleGistRaw = "x" ∧
    GistDesc.gist_identify 224 = none ∧
    gist_redo_dispatch 224 = .error .UnknownKind := by
  have h := unknown_kind_diagnostics_amended "x" 224 224 sampleBtreeRaw
    sampleGistRaw (by decide) (by decide)
  exact ⟨⟨by decide, by decide⟩, h.1.1, h.1.2.1, h.1.2.2, h.2.1, h.2.2.1, h.2.2.2⟩

/-- Claim C7: the formatter is deterministic and stateless — the text it
renders depends only on the decoded record, so a second call on the same
input appends exactly the same text again — and for every kind its output
carries the relation locator rendered `spc/db/rel`, item addresses
rendered `block/offset`, and every structurally distinguishing field of
that kind. -/
theorem format_stateless_and_complete :
    (∀ (buf : String) (info : Nat) (raw : BtreeRaw),
        btree_desc (btree_desc buf info raw) info raw =
          buf ++ btree_desc "" info raw ++ btree_desc "" info raw) ∧
    (∀ (buf : String) (info : Nat) (raw : GistRaw),
        GistDesc.gist_desc (GistDesc.gist_desc buf info raw) info raw =
          buf ++ GistDesc.gist_desc "" info raw ++ GistDesc.gist_desc "" info raw) ∧
    (∀ (info : Nat) (raw : BtreeRaw),
        (info = XLOG_BTREE_INSERT_LEAF ∨ info = XLOG_BTREE_INSERT_UPPER ∨
            info = XLOG_BTREE_INSERT_META) →
          btree_desc "" info raw =
            "rel " ++ showRelFileNode raw.asInsert.target.node ++
              "; tid " ++ showTid raw.asInsert.target.tid) ∧
    (∀ (info : Nat) (raw : BtreeRaw),
        (info = XLOG_BTREE_SPLIT_L ∨ info = XLOG_BTREE_SPLIT_R ∨
            info = XLOG_BTREE_SPLIT_L_ROOT ∨ info = XLOG_BTREE_SPLIT_R_ROOT) →
          btree_desc "" info raw =
            ("rel " ++ showRelFileNode raw.asSplit.node ++ " ") ++
              ("left " ++ toString raw.asSplit.leftsib ++
               ", right " ++ toString raw.asSplit.rightsib ++
               ", next " ++ toString raw.asSplit.rnext ++
               ", level " ++ toString raw.asSplit.level ++
               ", firstright " ++ toString raw.asSplit.firstright)) ∧
    (∀ raw : BtreeRaw,
        btree_desc "" XLOG_BTREE_VACUUM raw =
          "rel " ++ showRelFileNode raw.asVacuum.node ++
            "; blk " ++ toString raw.asVacuum.block ++
            ", lastBlockVacuumed " ++ toString raw.asVacuum.lastBlockVacuumed) ∧
    (∀ raw : BtreeRaw,
        btree_desc "" XLOG_BTREE_DELETE raw =
          "index " ++ showRelFileNode raw.asDelete.node ++
            "; iblk " ++ toString raw.asDelete.block ++
            ", heap " ++ showRelFileNode raw.asDelete.hnode ++ ";") ∧
    (∀ raw : BtreeRaw,
        btree_desc "" XLOG_BTREE_MARK_PAGE_HALFDEAD raw =
          ("rel " ++ showRelFileNode raw.asHalfdead.target.node ++
             "; tid " ++ showTid raw.asHalfdead.target.tid) ++
            ("; topparent " ++ toString raw.asHalfdead.topparent ++
             "; leaf " ++ toString raw.asHalfdead.leafblk ++
             "; left " ++ toString raw.asHalfdead.leftblk ++
             "; right " ++ toString raw.asHalfdead.rightblk)) ∧
    (∀ (info : Nat) (raw : BtreeRaw),
        (info = XLOG_BTREE_UNLINK_PAGE_META ∨ info = XLOG_BTREE_UNLINK_PAGE) →
          btree_desc "" info raw =
            (("rel " ++ showRelFileNode raw.asUnlink.node ++ "; ") ++
              ("dead " ++ toString raw.asUnlink.deadblk ++
               "; left " ++ toString raw.asUnlink.leftsib ++
               "; right " ++ toString raw.asUnlink.rightsib ++
               "; btpo_xact " ++ toString raw.asUnlink.btpo_xact ++ "; ")) ++
              ("leaf " ++ toString raw.asUnlink.leafblk ++
               "; leafleft " ++ toString raw.asUnlink.leafleftsib ++
               "; leafright " ++ toString raw.asUnlink.leafrightsib ++
               "; topparent " ++ toString raw.asUnlink.topparent)) ∧
    (∀ raw : BtreeRaw,
        btree_desc "" XLOG_BTREE_NEWROOT raw =
          "rel " ++ showRelFileNode raw.asNewroot.node ++
            "; root " ++ toString raw.asNewroot.rootblk ++
            " lev " ++ toString raw.asNewroot.level) ∧
    (∀ raw : BtreeRaw,
        btree_desc "" XLOG_BTREE_REUSE_PAGE raw =
          "rel " ++ showRelFileNode raw.asReuse.node ++
            "; latestRemovedXid " ++ toString raw.asReuse.latestRemovedXid) ∧
    (∀ raw : GistRaw,
        GistDesc.gist_desc "" XLOG_GIST_PAGE_UPDATE raw =
          ("rel " ++ showRelFileNode raw.asPageUpdate.node) ++
            ("; block number " ++ toString raw.asPageUpdate.blkno)) ∧
    (∀ raw : GistRaw,
        GistDesc.gist_desc "" XLOG_GIST_PAGE_SPLIT raw =
          ("page_split: " ++ ("rel " ++ showRelFileNode raw.asPageSplit.node)) ++
            ("; block number " ++ toString raw.asPageSplit.origblkno ++
             " splits to " ++ toString raw.asPageSplit.npage ++ " pages")) ∧
    (∀ raw : GistRaw,
        GistDesc.gist_desc "" XLOG_GIST_CREATE_INDEX raw =
          "rel " ++ showRelFileNode raw.asCreateIndex) := by
  refine ⟨?_, ?_, ?_, ?_, ?_, ?_, ?_, ?_, ?_, ?_, ?_, ?_, ?_⟩
  · intro buf info raw
    rw [btree_desc_frame buf info raw,
      btree_desc_frame (buf ++ btree_desc "" info raw) info raw]
  · intro buf info raw
    rw [gist_desc_frame buf info raw,
      gist_desc_frame (buf ++ GistDesc.gist_desc "" info raw) info raw]
  · intro info raw h
    rw [btree_desc_eq_insert _ _ _ h]
    simp only [out_target, String.empty_append]
  · intro info raw h
    rw [btree_desc_eq_split _ _ _ h]
    simp only [String.empty_append]
  · intro raw
    rw [btree_desc_eq_vacuum]
    simp only [String.empty_append]
  · intro raw
    rw [btree_desc_eq_delete]
    simp only [String.empty_append]
  · intro raw
    rw [btree_desc_eq_halfdead]
    simp only [out_target, String.empty_append]
  · intro info raw h
    rw [btree_desc_eq_unlink _ _ _ h]
    simp only [String.empty_append]
  · intro raw
    rw [btree_desc_eq_newroot]
    simp only [String.empty_append]
  · intro raw
    rw [btree_desc_eq_reuse]
    simp only [String.empty_append]
  · intro raw
    rw [gist_desc_eq_update]
    simp only [GistDesc.out_gistxlogPageUpdate, GistDesc.out_target,
      String.empty_append]
  · intro raw
    rw [gist_desc_eq_pagesplit]
    simp only [GistDesc.out_gistxlogPageSplit, GistDesc.out_target,
      String.empty_append]
  · intro raw
    rw [gist_desc_eq_create]
    simp only [String.empty_append]

/-- Witness for claim C7's conditional conjuncts at concrete kind tags. -/
theorem format_stateless_and_complete_witness :
    btree_desc "" XLOG_BTREE_INSERT_LEAF sampleBtreeRaw =
      "rel " ++ showRelFileNode sampleBtreeRaw.asInsert.target.node ++
        "; tid " ++ showTid sampleBtreeRaw.asInsert.target.tid ∧
    btree_desc "" XLOG_BTREE_SPLIT_L sampleBtreeRaw =
      ("rel " ++ showRelFileNode sampleBtreeRaw.asSplit.node ++ " ") ++
        ("left " ++ toString sampleBtreeRaw.asSplit.leftsib ++
         ", right " ++ toString sampleBtreeRaw.asSplit.rightsib ++
         ", next " ++ toString sampleBtreeRaw.asSplit.rnext ++
         ", level " ++ toString sampleBtreeRaw.asSplit.level ++
         ", firstright " ++ toString sampleBtreeRaw.asSplit.firstright) ∧
    btree_desc "" XLOG_BTREE_UNLINK_PAGE sampleBtreeRaw =
      (("rel " ++ showRelFileNode sampleBtreeRaw.asUnlink.node ++ "; ") ++
        ("dead " ++ toString sampleBtreeRaw.asUnlink.deadblk ++
         "; left " ++ toString sampleBtreeRaw.asUnlink.leftsib ++
         "; right " ++ toString sampleBtreeRaw.asUnlink.rightsib ++
         "; btpo_xact " ++ toString sampleBtreeRaw.asUnlink.btpo_xact ++ "; ")) ++
        ("leaf " ++ toString sampleBtreeRaw.asUnlink.leafblk ++
         "; leafleft " ++ toString sampleBtreeRaw.asUnlink.leafleftsib ++
         "; leafright " ++ toString sampleBtreeRaw.asUnlink.leafrightsib ++
         "; topparent " ++ toString sampleBtreeRaw.asUnlink.topparent) :=
  ⟨format_stateless_and_complete.2.2.1 XLOG_BTREE_INSERT_LEAF sampleBtreeRaw
     (Or.inl rfl),
   format_stateless_and_complete.2.2.2.1 XLOG_BTREE_SPLIT_L sampleBtreeRaw
     (Or.inl rfl),
   format_stateless_and_complete.2.2.2.2.2.2.2.1 XLOG_BTREE_UNLINK_PAGE
     sampleBtreeRaw (Or.inr rfl)⟩

/-- A successful application stamps the page with a position at least the
record's. -/
theorem applyRecord_pos_le (acts : List Nat) (r : LocatedRecord) (p q : Page)
    (h : applyRecord acts r p = .ok q) : r.pos ≤ q.lastApplied := by
  unfold applyRecord at h
  split at h
  · rename_i hle
    simp only [Except.ok.injEq] at h
    subst h
    exact hle
  · rename_i hgt
    split at h
    all_goals repeat' split at h
    all_goals
      first
      | (simp only [Except.ok.injEq] at h
         subst h
         simp)
      | simp at h

/-- A concrete located insert record used as a test input. -/
def sampleInsertRec : LocatedRecord :=
  ⟨5, .insert_leaf ⟨⟨⟨1663, 12345, 67890⟩, ⟨42, 3⟩⟩⟩⟩

/-- A concrete page whose header records log position 10. -/
def samplePage : Page := ⟨10, .Normal, none, none, 0, 0⟩

/-- A concrete unlinked page at log position 0. -/
def samplePageUnlinked : Page := ⟨0, .Unlinked, none, none, 0, 0⟩

/-- A concrete reuse-page record body with removal-horizon xid 7. -/
def sampleReuseRec : xl_btree_reuse_page := ⟨⟨1663, 12345, 67890⟩, 7⟩

/-- Claim C1: replay is monotone in log position — if a page's recorded
last-applied position is not older than the record's position, applying
the record is a no-op with no mutation and no error — and idempotent:
applying any record twice to the same starting page state yields exactly
the final state of applying it once. -/
theorem replay_idempotent_monotone :
    ∀ (activeXids : List Nat) (r : LocatedRecord) (p : Page),
      (p.lastApplied ≥ r.pos → applyRecord activeXids r p = .ok p) ∧
      applyTwice activeXids r p = applyRecord activeXids r p := by
  intro acts r p
  constructor
  · intro h
    unfold applyRecord
    rw [if_pos h]
  · unfold applyTwice
    cases hq : applyRecord acts r p with
    | error e => rfl
    | ok q =>
      have hle := applyRecord_pos_le acts r p q hq
      show applyRecord acts r q = .ok q
      unfold applyRecord
      rw [if_pos hle]

/-- Witness for claim C1 at a concrete record and page. -/
theorem replay_idempotent_monotone_witness :
    samplePage.lastApplied ≥ sampleInsertRec.pos ∧
    applyRecord [] sampleInsertRec samplePage = .ok samplePage ∧
    applyTwice [] sampleInsertRec samplePage =
      applyRecord [] sampleInsertRec samplePage :=
  ⟨by decide,
   (replay_idempotent_monotone [] sampleInsertRec samplePage).1 (by decide),
   (replay_idempotent_monotone [] sampleInsertRec samplePage).2⟩

/-- Claim C8: replaying a reuse-page record with removal-horizon xid X
(at a position the page has not yet applied) is rejected as a fatal
replay error whenever an active transaction older than X exists, and is
accepted otherwise (from the unlinked state the spec's state machine
requires). -/
theorem reuse_page_guard :
    ∀ (activeXids : List Nat) (pos : Nat) (x : xl_btree_reuse_page) (p : Page),
      p.lastApplied < pos →
      ((activeXids.any (fun t => t < x.latestRemovedXid) = true →
          applyRecord activeXids ⟨pos, .reuse_page x⟩ p =
            .error .InvariantViolation) ∧
       (activeXids.any (fun t => t < x.latestRemovedXid) = false →
          p.state = .Unlinked →
          applyRecord activeXids ⟨pos, .reuse_page x⟩ p =
            .ok { p with state := .Reusable, lastApplied := pos })) := by
  intro acts pos x p hpos
  have hnle : ¬ pos ≤ p.lastApplied := by omega
  constructor
  · intro hg
    simp [applyRecord, hnle, hg]
  · intro hg hst
    simp [applyRecord, hnle, hg, hst]

/-- Witness for claim C8: with active transaction 3 < 7 the reuse is a
fatal error; with only active transaction 9 ≥ 7 it is applied. -/
theorem reuse_page_guard_witness :
    applyRecord [3] ⟨1, .reuse_page sampleReuseRec⟩ samplePageUnlinked =
      .error .InvariantViolation ∧
    applyRecord [9] ⟨1, .reuse_page sampleReuseRec⟩ samplePageUnlinked =
      .ok { samplePageUnlinked with state := .Reusable, lastApplied := 1 } :=
  ⟨(reuse_page_guard [3] 1 sampleReuseRec samplePageUnlinked (by decide)).1
     (by decide),
   (reuse_page_guard [9] 1 sampleReuseRec samplePageUnlinked (by decide)).2
     (by decide) (by decide)⟩

/-- Reading past the available bytes fails: when the buffer is shorter
than the fields require, `readFields` returns `none`. -/
theorem readFields_eq_none (bs : List Nat) :
    ∀ (ws : List Nat) (off : Nat), off ≤ bs.length →
      bs.length < off + ws.sum → readFields bs off ws = none := by
  intro ws
  induction ws with
  | nil =>
    intro off h1 h2
    simp only [List.sum_nil, Nat.add_zero] at h2
    omega
  | cons w ws ih =>
    intro off h1 h2
    simp only [readFields]
    by_cases hc : off + w ≤ bs.length
    · rw [show readField bs off w = some (leBytes ((bs.drop off).take w)) from by
        simp [readField, hc]]
      rw [Option.some_bind]
      rw [ih (off + w) hc (by
        have h3 := h2
        simp only [List.sum_cons] at h3
        omega)]
      rfl
    · rw [show readField bs off w = none from by simp [readField, hc]]
      rfl

/-- `readFields` depends only on the bytes the declared widths cover. -/
theorem readFields_take (bs : List Nat) (n : Nat) :
    ∀ (ws : List Nat) (off : Nat), off + ws.sum ≤ n →
      readFields (bs.take n) off ws = readFields bs off ws := by
  intro ws
  induction ws with
  | nil => intro off h; rfl
  | cons w ws ih =>
    intro off h
    have hwn : off + w ≤ n := by
      have h' := h
      simp only [List.sum_cons] at h'
      omega
    simp only [readFields]
    have hfield : readField (bs.take n) off w = readField bs off w := by
      unfold readField
      rw [List.length_take]
      by_cases hc : off + w ≤ bs.length
      · rw [if_pos (by omega : off + w ≤ min n bs.length), if_pos hc]
        rw [List.drop_take, List.take_take, Nat.min_eq_left (by omega)]
      · rw [if_neg (by omega : ¬ off + w ≤ min n bs.length), if_neg hc]
    rw [hfield]
    cases hf : readField bs off w with
    | none => rfl
    | some v =>
      rw [Option.some_bind, Option.some_bind]
      rw [ih (off + w) (by
        have h' := h
        simp only [List.sum_cons] at h'
        omega)]

/-- Claim C2: for every access method and kind, decoding a buffer with
fewer bytes than that kind's fixed header requires yields the `Truncated`
error instead of reading past the end; and the decode result depends only
on the first `headerSize` bytes of the buffer, so no out-of-bounds byte is
ever reinterpreted. -/
theorem decode_truncated_and_bounded :
    (∀ (k : BtreeKind) (bs : List Nat), bs.length < btreeHdrSize k →
        decode_btree k bs = .error .Truncated) ∧
    (∀ (k : GistKind) (bs : List Nat), bs.length < gistHdrSize k →
        decode_gist k bs = .error .Truncated) ∧
    (∀ (k : BtreeKind) (bs : List Nat),
        decode_btree k bs = decode_btree k (bs.take (btreeHdrSize k))) ∧
    (∀ (k : GistKind) (bs : List Nat),
        decode_gist k bs = decode_gist k (bs.take (gistHdrSize k))) := by
  refine ⟨?_, ?_, ?_, ?_⟩
  · intro k bs h
    unfold decode_btree
    rw [readFields_eq_none bs (btreeFieldWidths k) 0 (Nat.zero_le _)
      (by simpa [btreeHdrSize] using h)]
  · intro k bs h
    unfold decode_gist
    rw [readFields_eq_none bs (gistFieldWidths k) 0 (Nat.zero_le _)
      (by simpa [gistHdrSize] using h)]
  · intro k bs
    unfold decode_btree
    rw [readFields_take bs (btreeHdrSize k) (btreeFieldWidths k) 0
      (by simp [btreeHdrSize])]
  · intro k bs
    unfold decode_gist
    rw [readFields_take bs (gistHdrSize k) (gistFieldWidths k) 0
      (by simp [gistHdrSize])]

/-- Witness for claim C2: a 3-byte buffer is too short for a reuse-page
header (16 bytes) and decodes to `Truncated`. -/
theorem decode_truncated_and_bounded_witness :
    ([7, 7, 7] : List Nat).length < btreeHdrSize .reuse_page ∧
    decode_btree .reuse_page [7, 7, 7] = .error .Truncated ∧
    ([] : List Nat).length < gistHdrSize .create_index ∧
    decode_gist .create_index [] = .error .Truncated :=
  ⟨by decide,
   decode_truncated_and_bounded.1 .reuse_page [7, 7, 7] (by decide),
   by decide,
   decode_truncated_and_bounded.2.1 .create_index [] (by decide)⟩
